import Mathlib

/-!
Verification of the learning-agent core against its specification.

The Python sources are shallowly embedded: each class becomes a structure,
each mutating method becomes a state-passing function, the model-call port
(`LLMClient.chat` / `chat_simple`, out of scope per the spec) becomes an
oracle parameter, and Python exceptions become `Except` values.
-/

namespace LearningAgent

/-- A role-tagged chat message as stored by the conversation history
(the `{"role": r, "content": c}` dictionaries of `src/memory/history.py`). -/
structure HistMsg where
  role : String
  content : String
deriving DecidableEq

/-- Python list slice `lst[-n:]`: the last `n` elements of the list, except
that `n = 0` yields the whole list (`lst[-0:]` is `lst[0:]`). -/
def pySliceLast {α : Type} (n : Nat) (l : List α) : List α :=
  if n = 0 then l else l.drop (l.length - n)

/-- Model of `ConversationHistory` of `src/memory/history.py`: a bounded, ordered log
of role-tagged messages.  `max_turns` is the capacity in user/assistant
pairs; `messages` is the private `_messages` list. -/
structure ConversationHistory where
  max_turns : Nat
  messages : List HistMsg
deriving DecidableEq

namespace ConversationHistory

/-- Model of `_truncate`: when more than `max_messages = max_turns * 2` messages are
stored, keep the slice `self._messages[-max_messages:]`. -/
def truncate (h : ConversationHistory) : ConversationHistory :=
  if h.messages.length > h.max_turns * 2 then
    { h with messages := pySliceLast (h.max_turns * 2) h.messages }
  else h

/-- Model of `add_user_message`: append a user message, then truncate. -/
def add_user_message (h : ConversationHistory) (content : String) : ConversationHistory :=
  truncate { h with messages := h.messages ++ [⟨"user", content⟩] }

/-- Model of `add_assistant_message`: append an assistant message, then truncate. -/
def add_assistant_message (h : ConversationHistory) (content : String) : ConversationHistory :=
  truncate { h with messages := h.messages ++ [⟨"assistant", content⟩] }

/-- Model of `get_messages`: the stored message list (the copy/alias distinction is
modelled separately on the heap model below). -/
def get_messages (h : ConversationHistory) : List HistMsg := h.messages

/-- Model of `clear`: drop all stored messages. -/
def clear (h : ConversationHistory) : ConversationHistory := { h with messages := [] }

/-- Model of `turn_count`: `len(self._messages) // 2`. -/
def turn_count (h : ConversationHistory) : Nat := h.messages.length / 2

/-- Model of `__len__`: number of stored messages. -/
def len (h : ConversationHistory) : Nat := h.messages.length

end ConversationHistory

/-- A fresh history with the given capacity (`ConversationHistory(max_turns)`). -/
def emptyHistory (maxTurns : Nat) : ConversationHistory := ⟨maxTurns, []⟩

/-- One complete turn: `add_user_message` followed by `add_assistant_message`. -/
def addPair (h : ConversationHistory) (p : String × String) : ConversationHistory :=
  (h.add_user_message p.1).add_assistant_message p.2

/-- Run a sequence of complete turns on a fresh history. -/
def runPairs (maxTurns : Nat) (ps : List (String × String)) : ConversationHistory :=
  ps.foldl addPair (emptyHistory maxTurns)

/-- The message list produced by a sequence of user/assistant pairs. -/
def pairMsgs (ps : List (String × String)) : List HistMsg :=
  ps.foldr (fun p acc => ⟨"user", p.1⟩ :: ⟨"assistant", p.2⟩ :: acc) []

/-- The last `n` elements of a list (plain suffix, no Python `-0` quirk). -/
def takeLast {α : Type} (n : Nat) (l : List α) : List α := l.drop (l.length - n)

/-! ### Heap model of `get_messages` (claim C10)

`get_messages` is `return list(self._messages)`: a fresh Python list object
holding a copy of the stored contents.  To state the aliasing property the
list objects are modelled on an explicit heap of list cells; the history
object holds the address of its `_messages` cell. -/

/-- A heap of Python list objects: address (index) to current contents. -/
structure ListHeap where
  cells : List (List HistMsg)
deriving DecidableEq

namespace ListHeap

/-- Contents of the list object at address `a`. -/
def read (h : ListHeap) (a : Nat) : List HistMsg := h.cells.getD a []

/-- In-place mutation of the list object at address `a`. -/
def write (h : ListHeap) (a : Nat) (v : List HistMsg) : ListHeap := ⟨h.cells.set a v⟩

/-- Allocation of a fresh list object; its address is the next free index. -/
def alloc (h : ListHeap) (v : List HistMsg) : ListHeap × Nat :=
  (⟨h.cells ++ [v]⟩, h.cells.length)

end ListHeap

/-- Heap-level `get_messages`: `list(self._messages)` allocates a fresh list
object initialised with a copy of the cell at `addr` and returns its address. -/
def get_messagesHeap (heap : ListHeap) (addr : Nat) : ListHeap × Nat :=
  heap.alloc (heap.read addr)

/-! ### ReAct agent (`src/agent/react.py`)

The model-call port (`LLMClient.chat`, an external collaborator per the spec)
is an oracle indexed by the number of model calls made so far; tool execution
(`ToolRegistry.execute`, whose error handling is internal to the registry) is
an oracle from tool name and argument text to observation text. -/

/-- One structured tool-invocation request of a model reply
(`tc.id`, `tc.function.name`, `tc.function.arguments`). -/
structure ToolCall where
  id : String
  name : String
  arguments : String
deriving DecidableEq

/-- One model reply: optional free text plus zero or more tool invocations. -/
structure ModelReply where
  content : Option String
  tool_calls : List ToolCall
deriving DecidableEq

/-- A message of the loop's accumulating context list. -/
inductive CtxMsg where
  | system (content : String)
  | user (content : String)
  | assistant (content : Option String) (tool_calls : List ToolCall)
  | tool (tool_call_id : String) (content : String)
deriving DecidableEq

/-- Modelled from the spec: `SYSTEM_PROMPT_FUNCTION_CALLING` lives in
`src/agent/prompt.py`, which is not among the sources; the spec says only
that the message list is seeded with a system prompt, whose exact text no
claim depends on. -/
def SYSTEM_PROMPT_FUNCTION_CALLING : String := "system prompt for the structured-call protocol"

/-- Modelled from the spec: `SYSTEM_PROMPT_TEXT_PARSING` (from the missing
`src/agent/prompt.py`) after formatting in the tool descriptions. -/
def SYSTEM_PROMPT_TEXT_PARSING : String := "system prompt for the free-text protocol"

/-- The fixed fallback answer returned when `max_steps` is exhausted. -/
def FALLBACK_MESSAGE : String :=
  "抱歉，我在多次尝试后仍未能得出明确结论。请尝试简化问题或提供更多信息。"

/-- A history message re-sent as loop context. -/
def histToCtx (m : HistMsg) : CtxMsg :=
  if m.role = "user" then CtxMsg.user m.content else CtxMsg.assistant (some m.content) []

/-- Outcome of the bounded step loop: terminal answer (`none` when the step
ceiling ran out), number of model calls, executed invocations (name and
argument text, in execution order) and the final context list. -/
structure LoopOut where
  answer : Option String
  modelCalls : Nat
  toolExecs : List (String × String)
  finalCtx : List CtxMsg
deriving DecidableEq

/-- The `for step in range(1, max_steps + 1)` loop of `_run_function_calling`:
one model call per step; a reply without tool calls is terminal, otherwise
every requested invocation is executed in the order returned and a tool
message is appended per invocation. -/
def runFCAux (llm : Nat → ModelReply) (exec : String → String → String) :
    Nat → Nat → List CtxMsg → LoopOut
  | 0, _, msgs => ⟨none, 0, [], msgs⟩
  | fuel + 1, idx, msgs =>
    let reply := llm idx
    let msgs1 := msgs ++ [CtxMsg.assistant reply.content reply.tool_calls]
    if reply.tool_calls.isEmpty then
      ⟨some (reply.content.getD ""), 1, [], msgs1⟩
    else
      let obs := reply.tool_calls.map (fun tc => (tc.name, exec tc.name tc.arguments))
      let msgs2 := msgs1 ++ reply.tool_calls.map (fun tc => CtxMsg.tool tc.id (exec tc.name tc.arguments))
      let rest := runFCAux llm exec fuel (idx + 1) msgs2
      ⟨rest.answer, rest.modelCalls + 1, obs ++ rest.toolExecs, rest.finalCtx⟩

/-- Result of one `run` call: answer text, updated conversation history,
model-call count and executed invocations. -/
structure RunResult where
  answer : String
  history : ConversationHistory
  modelCalls : Nat
  toolExecs : List (String × String)
deriving DecidableEq

/-- Model of `_run_function_calling`: seed the context with the system prompt, the
prior history and the query; run the loop; on a terminal reply record the
turn and return its text, on exhaustion record and return the fallback. -/
def runFunctionCalling (llm : Nat → ModelReply) (exec : String → String → String)
    (maxSteps : Nat) (hist : ConversationHistory) (query : String) : RunResult :=
  let msgs := CtxMsg.system SYSTEM_PROMPT_FUNCTION_CALLING ::
    (hist.get_messages.map histToCtx ++ [CtxMsg.user query])
  let out := runFCAux llm exec maxSteps 0 msgs
  match out.answer with
  | some ans =>
    ⟨ans, (hist.add_user_message query).add_assistant_message ans, out.modelCalls, out.toolExecs⟩
  | none =>
    ⟨FALLBACK_MESSAGE, (hist.add_user_message query).add_assistant_message FALLBACK_MESSAGE,
      out.modelCalls, out.toolExecs⟩

/-! ### Free-text protocol markers

`_run_text_parsing` extracts markers with `re.search`; the three patterns
(`Final Answer:\s*(.+)` with DOTALL, `Action:\s*(\w+)`,
`Action Input:\s*(\x7b.*?\x7d)` with DOTALL) are modelled as first-position
searches with a closed-form per-position match. -/

/-- ASCII whitespace as matched by the regex class `\s`. -/
def isPySpace (c : Char) : Bool :=
  c == ' ' || c == '\t' || c == '\n' || c == '\r' || c == '\x0b' || c == '\x0c'

/-- ASCII word characters as matched by the regex class `\w`. -/
def isWordChar (c : Char) : Bool :=
  c.isAlphanum || c == '_'

/-- Python `str.strip()`: drop leading and trailing whitespace. -/
def pyStrip (s : String) : String :=
  ⟨((s.data.dropWhile isPySpace).reverse.dropWhile isPySpace).reverse⟩

/-- The opening brace character, `chr 123`. -/
def openBrace : Char := Char.ofNat 123

/-- The closing brace character, `chr 125`. -/
def closeBrace : Char := Char.ofNat 125

/-- The default argument text of the free-text protocol: an empty JSON object. -/
def emptyJsonObj : String := ⟨[openBrace, closeBrace]⟩

/-- Generic `re.search`: try a per-position matcher at every start position,
leftmost success first. -/
def searchAux {α : Type} (f : List Char → Option α) : List Char → Option α
  | [] => f []
  | c :: rest =>
    match f (c :: rest) with
    | some r => some r
    | none => searchAux f rest

/-- Model of `Final Answer:\s*(.+)` (DOTALL) anchored at the start: succeeds whenever
at least one character follows the marker; combined with the subsequent
`.strip()` of group 1 the extracted answer is the remainder stripped of
surrounding whitespace. -/
def matchFinalAnswerAt (cs : List Char) : Option String :=
  if cs.take 13 = "Final Answer:".data then
    let rest := cs.drop 13
    if rest.isEmpty then none else some (pyStrip ⟨rest⟩)
  else none

/-- Model of `re.search(r"Final Answer:\s*(.+)", text, re.DOTALL)` followed by
`.group(1).strip()`. -/
def findFinalAnswer (text : String) : Option String :=
  searchAux matchFinalAnswerAt text.data

/-- Model of `Action:\s*(\w+)` anchored at the start: the marker, then whitespace,
then a non-empty maximal word-character run. -/
def matchActionAt (cs : List Char) : Option String :=
  if cs.take 7 = "Action:".data then
    let rest := (cs.drop 7).dropWhile isPySpace
    let word := rest.takeWhile isWordChar
    if word.isEmpty then none else some ⟨word⟩
  else none

/-- Model of `re.search(r"Action:\s*(\w+)", text)`. -/
def findAction (text : String) : Option String :=
  searchAux matchActionAt text.data

/-- Model of `Action Input:\s*(\x7b.*?\x7d)` (DOTALL) anchored at the start: the
marker, whitespace, an opening brace, then non-greedily up to the first
closing brace. -/
def matchActionInputAt (cs : List Char) : Option String :=
  if cs.take 13 = "Action Input:".data then
    match (cs.drop 13).dropWhile isPySpace with
    | [] => none
    | c :: body =>
      if c = openBrace then
        let upto := body.takeWhile (fun d => d ≠ closeBrace)
        if upto.length < body.length then some ⟨openBrace :: (upto ++ [closeBrace])⟩
        else none
      else none
  else none

/-- Model of `re.search(r"Action Input:\s*(\x7b.*?\x7d)", text, re.DOTALL)`. -/
def findActionInput (text : String) : Option String :=
  searchAux matchActionInputAt text.data

/-- The `for step in range(1, max_steps + 1)` loop of `_run_text_parsing`:
one model call per step; a `Final Answer:` match is terminal, a reply with no
`Action:` marker is itself terminal, otherwise the matched action is executed
and the observation is appended to the transcript. -/
def runTPAux (llm : Nat → String) (exec : String → String → String) :
    Nat → Nat → List CtxMsg → LoopOut
  | 0, _, msgs => ⟨none, 0, [], msgs⟩
  | fuel + 1, idx, msgs =>
    let text := llm idx
    match findFinalAnswer text with
    | some ans => ⟨some ans, 1, [], msgs⟩
    | none =>
      match findAction text with
      | none => ⟨some text, 1, [], msgs⟩
      | some actionName =>
        let actionInput := (findActionInput text).getD emptyJsonObj
        let obs := exec actionName actionInput
        let msgs2 := msgs ++ [CtxMsg.assistant (some text) [],
          CtxMsg.user ("Observation: " ++ obs ++ "\n\n请继续思考，或给出 Final Answer。")]
        let rest := runTPAux llm exec fuel (idx + 1) msgs2
        ⟨rest.answer, rest.modelCalls + 1, (actionName, actionInput) :: rest.toolExecs,
          rest.finalCtx⟩

/-- Model of `_run_text_parsing`: seed the context with the formatted system prompt,
the prior history and `Question: <query>`; run the loop; record the turn and
return its text, or the fallback on exhaustion. -/
def runTextParsing (llm : Nat → String) (exec : String → String → String)
    (maxSteps : Nat) (hist : ConversationHistory) (query : String) : RunResult :=
  let msgs := CtxMsg.system SYSTEM_PROMPT_TEXT_PARSING ::
    (hist.get_messages.map histToCtx ++ [CtxMsg.user ("Question: " ++ query ++ "\n")])
  let out := runTPAux llm exec maxSteps 0 msgs
  match out.answer with
  | some ans =>
    ⟨ans, (hist.add_user_message query).add_assistant_message ans, out.modelCalls, out.toolExecs⟩
  | none =>
    ⟨FALLBACK_MESSAGE, (hist.add_user_message query).add_assistant_message FALLBACK_MESSAGE,
      out.modelCalls, out.toolExecs⟩

/-- A scripted structured-call port for the witness: one invocation on the
first step, then a terminal reply. -/
def fcScriptLlm : Nat → ModelReply := fun i =>
  if i = 0 then ⟨some "thinking", [⟨"call-1", "calculator", emptyJsonObj⟩]⟩
  else ⟨some "final answer", []⟩

/-- The scripted invocation used by `fcScriptLlm`. -/
def fcScriptCall : Nat → ToolCall := fun _ => ⟨"call-1", "calculator", emptyJsonObj⟩

/-- A tool-execution oracle returning a constant observation. -/
def constExec : String → String → String := fun _ _ => "4"

/-- A scripted free-text port for the witness: every reply carries an action
and no final answer. -/
def tpScriptLlm : Nat → String := fun _ =>
  "Action: tool_x\nAction Input: " ++ emptyJsonObj

/-- A structured-call port that always requests one invocation. -/
def fcLoopLlm : Nat → ModelReply := fun _ => ⟨none, [⟨"c1", "tool_x", emptyJsonObj⟩]⟩

/-! ### Messages and shared state (`src/multi/message.py`, `src/multi/shared_state.py`) -/

/-- Model of `MessageType` enumeration. -/
inductive MessageType where
  | task
  | result
  | feedback
  | system
deriving DecidableEq

/-- Model of `Message`: the standard inter-agent record.  The timestamp is captured at
construction (wall-clock time is not modelled; constructors pass it
explicitly, `""` where the code relies on the default factory). -/
structure Message where
  sender : String
  receiver : String
  content : String
  msg_type : MessageType
  metadata : List (String × String)
  timestamp : String
deriving DecidableEq

/-- Python `dict` insertion: an existing key is updated in place, a new key
is appended at the end. -/
def dictInsert (m : List (String × String)) (k v : String) : List (String × String) :=
  if m.any (fun p => p.1 = k) then
    m.map (fun p => if p.1 = k then (k, v) else p)
  else m ++ [(k, v)]

/-- Model of `SharedState`: the blackboard shared by one coordination strategy. -/
structure SharedState where
  task : String
  plan : List String
  results : List (String × String)
  messages : List Message
  status : String
  current_step : Nat
  max_steps : Nat
  metadata : List (String × String)
deriving DecidableEq

namespace SharedState

/-- Model of `add_message`: append one message to the log. -/
def add_message (st : SharedState) (m : Message) : SharedState :=
  { st with messages := st.messages ++ [m] }

/-- Model of `add_result`: record an agent's result and log a RESULT message. -/
def add_result (st : SharedState) (agentName result : String) : SharedState :=
  add_message { st with results := dictInsert st.results agentName result }
    ⟨agentName, "system", result, MessageType.result, [], ""⟩

end SharedState

/-- The body of `get_all_results`: formatted text of a results map. -/
def formatAllResults (res : List (String × String)) : String :=
  if res.isEmpty then "(暂无结果)"
  else String.intercalate "\n\n"
    (res.map (fun p => "[" ++ p.1 ++ "] 的结果:\n" ++ p.2))

namespace SharedState

/-- Model of `get_all_results`: formatted text of all recorded results. -/
def get_all_results (st : SharedState) : String :=
  formatAllResults st.results

/-- Model of `reset`: clear everything except the `max_steps` configuration. -/
def reset (st : SharedState) : SharedState :=
  ⟨"", [], [], [], "idle", 0, st.max_steps, []⟩

/-- Model of `_broadcast` of `src/multi/base.py`: overwrite the message's receiver
with `"all"`, then log it. -/
def broadcast (st : SharedState) (m : Message) : SharedState :=
  st.add_message { m with receiver := "all" }

end SharedState

/-- A fresh `SharedState()` with the dataclass defaults. -/
def initSharedState : SharedState := ⟨"", [], [], [], "idle", 0, 20, []⟩

/-! ### Coordination base: dispatch (`src/multi/base.py`) -/

/-- A live agent as seen by the coordinator: its role system prompt and its
`run` entry point, which either returns an answer or raises an exception
(`Except.error` with the exception text). -/
structure AgentModel where
  rolePrompt : String
  run : String → Except String String

/-- Model of `agent_names`: the registered names, in registration order. -/
def agentNames (agents : List (String × AgentModel)) : List String :=
  agents.map (fun p => p.1)

/-- A single-quote character (`chr 39`), as used by Python `repr`. -/
def pyQuote : String := String.singleton (Char.ofNat 39)

/-- Python `repr` of a list of strings, as an f-string interpolates it. -/
def pyListRepr (xs : List String) : String :=
  "[" ++ String.intercalate ", " (xs.map (fun s => pyQuote ++ s ++ pyQuote)) ++ "]"

/-- The task actually given to the agent: the role prompt, when present, is
prefixed as plain text context. -/
def fullTaskOf (rolePrompt task : String) : String :=
  if rolePrompt ≠ "" then
    "[系统角色指令]\n" ++ rolePrompt ++ "\n\n[当前任务]\n" ++ task
  else task

/-- Model of `_dispatch`: look up the agent (unknown names yield a formatted error
string, never an exception); otherwise log a TASK message, run the agent with
the role-prefixed task, convert a raised exception into a formatted error
string, record the result, and return it.  The returned value is
`Except.error` only if dispatch itself propagated an exception, which is
shown below to never happen.  Hook callbacks are effect-free in this
model (their exceptions are swallowed by `_fire_hook`); the per-dispatch
`agent.reset()` clears only the agent's private history. -/
def dispatch (agents : List (String × AgentModel)) (st : SharedState)
    (agentName task : String) : Except String (String × SharedState) :=
  match List.lookup agentName agents with
  | none =>
    Except.ok ("错误：Agent " ++ pyQuote ++ agentName ++ pyQuote ++ " 不存在。可用：" ++
      pyListRepr (agentNames agents), st)
  | some agent =>
    let st1 := st.add_message ⟨"system", agentName, task, MessageType.task, [], ""⟩
    let result := match agent.run (fullTaskOf agent.rolePrompt task) with
      | Except.ok r => r
      | Except.error e =>
        "错误：Agent " ++ pyQuote ++ agentName ++ pyQuote ++ " 执行失败：" ++ e
    Except.ok (result, st1.add_result agentName result)

/-- The witness coordinator: one registered agent whose run always raises. -/
def wAgents : List (String × AgentModel) :=
  [("worker", ⟨"", fun _ => Except.error "boom"⟩)]

/-! ### Tool registry (`src/tools/base.py`) -/

/-- A tool as the registry sees it: name, description and parameter schema
(the schema payload is opaque text here; `run` lives behind `execute`, an
external concern for the registration claims). -/
structure Tool where
  name : String
  description : String
  parameters : String
deriving DecidableEq

/-- The OpenAI function-calling export of one tool (`to_openai_tool`). -/
structure OpenAITool where
  type : String
  name : String
  description : String
  parameters : String
deriving DecidableEq

/-- Model of `Tool.to_openai_tool`. -/
def Tool.to_openai_tool (t : Tool) : OpenAITool :=
  ⟨"function", t.name, t.description, t.parameters⟩

/-- Model of `ToolRegistry`: name-keyed mapping of tools, in insertion order. -/
structure ToolRegistry where
  tools : List (String × Tool)
deriving DecidableEq

/-- Model of `ToolRegistry.register`: a duplicate name raises `ValueError`
(`Except.error`); otherwise the tool is stored under its name. -/
def ToolRegistry.register (r : ToolRegistry) (t : Tool) : Except String ToolRegistry :=
  if (r.tools.map (fun p => p.1)).contains t.name then
    Except.error ("工具 " ++ pyQuote ++ t.name ++ pyQuote ++ " 已注册，请勿重复注册。")
  else Except.ok ⟨r.tools ++ [(t.name, t)]⟩

/-- Model of `ToolRegistry.to_openai_tools`: schema export of all tools in order. -/
def ToolRegistry.to_openai_tools (r : ToolRegistry) : List OpenAITool :=
  r.tools.map (fun p => p.2.to_openai_tool)

/-- A fresh `ToolRegistry()`. -/
def emptyRegistry : ToolRegistry := ⟨[]⟩

/-- A calculator tool for the witness. -/
def calcTool : Tool := ⟨"calculator", "does math", "calc-schema"⟩

/-- A second tool with the same name as `calcTool`. -/
def calcTool2 : Tool := ⟨"calculator", "also does math", "calc-schema-2"⟩

/-- A tool with a distinct name. -/
def weatherTool : Tool := ⟨"weather", "looks up weather", "weather-schema"⟩

/-! ### Pipeline strategy (`src/multi/pipeline.py`)

Dispatch outcomes are abstracted as an oracle indexed by the global dispatch
call count, so the number of attempts is observable. -/

/-- Python `str.startswith`. -/
def pyStartsWith (s pre : String) : Bool := pre.data.isPrefixOf s.data

/-- Model of `PipelineStep`: one pipeline stage (pure data). -/
structure PipelineStep where
  agent_name : String
  task_template : String
  retry : Nat
  transform : Option (String → String)

/-- Model of `step.task_template.format(task=..., prev_result=..., all_results=...)`
for templates whose brace groups are exactly these three placeholders. -/
def renderTemplate (tmpl task prevResult allResults : String) : String :=
  ((tmpl.replace "{task}" task).replace "{prev_result}" prevResult).replace
    "{all_results}" allResults

/-- Model of `_execute_with_retry`: up to `retry` dispatch attempts; a result that
does not carry the reserved `错误：` prefix is returned at once, otherwise
the last error is kept.  `d` gives the dispatch result at each global call
index; the returned pair is the step result and the next call index. -/
def executeWithRetry (d : Nat → String) : Nat → Nat → String → String × Nat
  | idx, 0, lastError => (lastError, idx)
  | idx, rem + 1, _lastError =>
    let result := d idx
    if pyStartsWith result "错误：" then
      executeWithRetry d (idx + 1) rem result
    else (result, idx + 1)

/-- The step walk of `PipelineMultiAgent.run`.  Each underlying `_dispatch`
records its result under the agent's name; successive retry attempts
overwrite the same key, so recording the returned attempt's result once per
step is equivalent.  Arguments: remaining steps, previous result, final
result so far, global dispatch call index, results map. -/
def runPipelineSteps (d : Nat → String → String → String) (task : String) :
    List PipelineStep → String → String → Nat → List (String × String) → String × Nat
  | [], _, finalResult, idx, _ => (finalResult, idx)
  | step :: rest, prevResult, _, idx, res =>
    let rendered := renderTemplate step.task_template task prevResult (formatAllResults res)
    let stepOut := executeWithRetry (fun i => d i step.agent_name rendered) idx step.retry ""
    let result := match step.transform with
      | some f => f stepOut.1
      | none => stepOut.1
    runPipelineSteps d task rest result result stepOut.2 (dictInsert res step.agent_name stepOut.1)

/-- Model of `PipelineMultiAgent.run`: error out on an empty pipeline, otherwise walk
the steps; the pipeline output is the last step's (possibly transformed)
result, paired here with the total number of dispatch calls. -/
def runPipeline (d : Nat → String → String → String) (steps : List PipelineStep)
    (task : String) : String × Nat :=
  if steps.isEmpty then ("错误：流水线没有定义任何步骤。", 0)
  else runPipelineSteps d task steps "" "" 0 []

/-! ### Orchestrator strategy (`src/multi/orchestrator.py`) -/

/-- A JSON value, as produced by Python's `json.loads`. -/
inductive JsonV where
  | null
  | bool (b : Bool)
  | num (n : Int)
  | str (s : String)
  | arr (xs : List JsonV)
  | obj (fields : List (String × JsonV))

/-- The opening square bracket, `chr 91`. -/
def lBrack : Char := Char.ofNat 91

/-- The closing square bracket, `chr 93`. -/
def rBrack : Char := Char.ofNat 93

/-- Index of the first occurrence of `c`. -/
def firstIdxOf (c : Char) (cs : List Char) : Option Nat :=
  cs.findIdx? (fun d => d = c)

/-- Index of the last occurrence of `c`. -/
def lastIdxOf (c : Char) (cs : List Char) : Option Nat :=
  (cs.reverse.findIdx? (fun d => d = c)).map (fun j => cs.length - 1 - j)

/-- Model of `re.search(r"\[.*\]", text, re.DOTALL)`: the pattern is greedy, so a
match runs from the first opening bracket to the last closing bracket after
it; no opening bracket (or none before the last closing one) means no match. -/
def extractBracketed (text : String) : Option String :=
  match firstIdxOf lBrack text.data, lastIdxOf rBrack text.data with
  | some i, some j => if i < j then some ⟨(text.data.drop i).take (j - i + 1)⟩ else none
  | _, _ => none

/-- Validation of one plan entry: an object carrying both `agent` and `task`
keys (the values are taken as strings, which the downstream string
concatenation assumes anyway). -/
def validateItem : JsonV → Option (String × String)
  | JsonV.obj fields =>
    match List.lookup "agent" fields, List.lookup "task" fields with
    | some (JsonV.str a), some (JsonV.str t) => some (a, t)
    | _, _ => none
  | _ => none

/-- Validation of a parsed plan: malformed entries are dropped silently;
a non-array yields no entries. -/
def validatePlan : JsonV → List (String × String)
  | JsonV.arr items => items.filterMap validateItem
  | _ => []

/-- Model of `_parse_plan`, with Python's `json.loads` (standard library) abstracted
as a parameter — `none` models a raised decode error.  No bracket-delimited
substring, a decode failure, or a non-array all yield the empty plan. -/
def parsePlan (jsonLoads : String → Option JsonV) (text : String) :
    List (String × String) :=
  match extractBracketed text with
  | none => []
  | some sub =>
    match jsonLoads sub with
    | none => []
    | some j => validatePlan j

/-- The plan-execution walk of `OrchestratorMultiAgent.run`: once results
exist, the results-so-far text is appended to the sub-task; unknown agent
names are skipped without dispatching; each dispatched result is recorded.
Returns the total dispatch count and the results map. -/
def runOrchPlan (d : Nat → String → String → String) (agents : List String) :
    List (String × String) → Nat → List (String × String) → Nat × List (String × String)
  | [], idx, res => (idx, res)
  | (agentName, stepTask) :: rest, idx, res =>
    let subTask := if res.isEmpty then stepTask
      else stepTask ++ "\n\n[参考信息] 前面步骤的结果:\n" ++ formatAllResults res
    if agents.contains agentName then
      runOrchPlan d agents rest (idx + 1) (dictInsert res agentName (d idx agentName subTask))
    else runOrchPlan d agents rest idx res

/-- Model of `OrchestratorMultiAgent.run`: parse the planner's reply into a plan,
fail fast with the fixed message when it is empty, otherwise execute the
plan and fold the results through the final summarization model call
(`summarize`, applied to the task and the all-results text).  Returned with
the total number of agent dispatches. -/
def runOrchestrator (jsonLoads : String → Option JsonV) (plannerReply : String)
    (d : Nat → String → String → String) (summarize : String → String → String)
    (agents : List String) (task : String) : String × Nat :=
  let plan := parsePlan jsonLoads plannerReply
  if plan.isEmpty then ("错误：无法生成执行计划。", 0)
  else
    let out := runOrchPlan d agents plan 0 []
    (summarize task (formatAllResults out.2), out.1)

/-! ### Debate strategy (`src/multi/debate.py`) -/

/-- Model of `_format_opinions`: every prior round's opinions except those of the
excluded debater (exclusion by exact name match), one block per opinion,
joined by newlines; a fixed placeholder when nothing remains. -/
def formatOpinions (allRounds : List (List (String × String))) (exclude : String) : String :=
  let lines := (allRounds.enum.map (fun pr =>
    (pr.2.filter (fun p => p.1 ≠ exclude)).map (fun p =>
      "[第" ++ toString (pr.1 + 1) ++ "轮 - " ++ p.1 ++ "]:\n" ++ p.2 ++ "\n"))).flatten
  if lines.isEmpty then "(暂无其他观点)" else String.intercalate "\n" lines

/-- Model of `_format_all_rounds`: the full transcript shown to the judge. -/
def formatAllRounds (allRounds : List (List (String × String))) : String :=
  String.intercalate "\n" ((allRounds.enum.map (fun pr =>
    ("=== 第 " ++ toString (pr.1 + 1) ++ " 轮 ===") ::
      pr.2.map (fun p => "\n[" ++ p.1 ++ "]:\n" ++ p.2 ++ "\n"))).flatten)

/-- The round-1 sub-task: the raw topic only. -/
def debateRound1Task (task : String) : String :=
  "请就以下话题发表你的观点：\n\n" ++ task ++ "\n\n要求：给出你的核心观点、论据和结论。"

/-- The sub-task of rounds 2 and later: the topic plus the other debaters'
prior opinions. -/
def debateLaterTask (task others : String) : String :=
  "话题：" ++ task ++ "\n\n以下是其他参与者在之前轮次的观点：\n" ++ others ++
    "\n\n请你针对其他人的观点进行回应，可以反驳、补充或修正自己的观点。给出你更新后的核心观点和论据。"

/-- Model of `JUDGE_PROMPT.format(topic=..., rounds_summary=...)`. -/
def judgePrompt (topic roundsSummary : String) : String :=
  "你是一个公正的裁判。多位专家围绕以下话题进行了辩论，请你综合所有观点，给出最终裁决。\n\n原始话题：" ++
    topic ++ "\n\n" ++ roundsSummary ++
    "\n\n请你：\n1. 总结各方的核心观点和论据\n2. 分析各方观点的优缺点\n3. 给出你的最终结论和建议\n4. 说明你的裁决理由\n\n要求：客观公正，论据充分，结论明确。"

/-- One debate round: each debater in order receives the round's sub-task
and contributes an opinion (`d` is the dispatch outcome, per debater and
sub-task); the delivered sub-tasks are traced as `(round, debater, subTask)`. -/
def debateRound (d : String → String → String) (task : String) (debaters : List String)
    (allRounds : List (List (String × String))) (roundNum : Nat) :
    List (String × String) × List (Nat × String × String) :=
  debaters.foldl (fun acc name =>
    let subTask := if roundNum = 1 then debateRound1Task task
      else debateLaterTask task (formatOpinions allRounds name)
    (acc.1 ++ [(name, d name subTask)], acc.2 ++ [(roundNum, name, subTask)])) ([], [])

/-- The round loop of `DebateMultiAgent.run`: rounds `1 .. max_rounds`, the
opinion ledger growing by one round map per round. -/
def debateRounds (d : String → String → String) (task : String) (debaters : List String) :
    Nat → Nat → List (List (String × String)) → List (Nat × String × String) →
      List (List (String × String)) × List (Nat × String × String)
  | 0, _, allRounds, trace => (allRounds, trace)
  | rem + 1, roundNum, allRounds, trace =>
    let roundOut := debateRound d task debaters allRounds roundNum
    debateRounds d task debaters rem (roundNum + 1) (allRounds ++ [roundOut.1])
      (trace ++ roundOut.2)

/-- Model of `DebateMultiAgent.run` (for a configured judge and non-empty debater
list): the debate rounds followed by one judge dispatch over the full
transcript.  Returns the judge's verdict and the trace of delivered
sub-tasks. -/
def runDebate (d : String → String → String) (judgeD : String → String)
    (task : String) (debaters : List String) (maxRounds : Nat) :
    String × List (Nat × String × String) :=
  let out := debateRounds d task debaters maxRounds 1 [] []
  (judgeD (judgePrompt task (formatAllRounds out.1)), out.2)

/-- The round-2 sub-task a debater receives when exactly one other debater
spoke in round 1. -/
def round2TaskFor (task other otherOpinion : String) : String :=
  debateLaterTask task ("[第1轮 - " ++ other ++ "]:\n" ++ otherOpinion ++ "\n")

/-! ### Theorems -/

@[simp]
theorem pairMsgs_nil : pairMsgs [] = [] := rfl

@[simp]
theorem pairMsgs_cons (p : String × String) (ps : List (String × String)) :
    pairMsgs (p :: ps) = ⟨"user", p.1⟩ :: ⟨"assistant", p.2⟩ :: pairMsgs ps := rfl

theorem pairMsgs_append (xs ys : List (String × String)) :
    pairMsgs (xs ++ ys) = pairMsgs xs ++ pairMsgs ys := by
  induction xs with
  | nil => simp
  | cons p xs ih => simp [ih]

@[simp]
theorem pairMsgs_length (ps : List (String × String)) :
    (pairMsgs ps).length = 2 * ps.length := by
  induction ps with
  | nil => rfl
  | cons p ps ih => simp [ih]; omega

theorem takeLast_length {α : Type} (n : Nat) (l : List α) :
    (takeLast n l).length = min n l.length := by
  unfold takeLast
  rw [List.length_drop]
  omega

theorem takeLast_of_le {α : Type} {n : Nat} {l : List α} (h : l.length ≤ n) :
    takeLast n l = l := by
  unfold takeLast
  have h0 : l.length - n = 0 := by omega
  rw [h0, List.drop_zero]

theorem takeLast_snoc_of_lt {α : Type} {n : Nat} {l : List α} (x : α) (h : l.length < n) :
    takeLast n (l ++ [x]) = takeLast n l ++ [x] := by
  rw [takeLast_of_le (l := l ++ [x]) (by simp; omega), takeLast_of_le (Nat.le_of_lt h)]

theorem takeLast_snoc_of_ge {α : Type} {n : Nat} {l : List α} (x : α)
    (hn : 1 ≤ n) (h : n ≤ l.length) :
    takeLast n (l ++ [x]) = (takeLast n l).tail ++ [x] := by
  unfold takeLast
  have h1 : (l ++ [x]).length - n = l.length - n + 1 := by simp; omega
  rw [h1, List.tail_drop, List.drop_append_of_le_length (by omega)]

theorem truncate_of_le (h : ConversationHistory)
    (hle : h.messages.length ≤ h.max_turns * 2) : h.truncate = h := by
  unfold ConversationHistory.truncate
  rw [if_neg (by omega)]

theorem truncate_of_one_over (h : ConversationHistory) (hmt : 1 ≤ h.max_turns)
    (hlen : h.messages.length = h.max_turns * 2 + 1) :
    h.truncate = ⟨h.max_turns, h.messages.drop 1⟩ := by
  unfold ConversationHistory.truncate pySliceLast
  rw [if_pos (by omega), if_neg (by omega)]
  have h1 : h.messages.length - h.max_turns * 2 = 1 := by omega
  rw [h1]

/-- One complete turn on a history holding fewer pairs than the capacity
appends the new pair. -/
theorem addPair_below (mt : Nat) (qs : List (String × String)) (p : String × String)
    (h : qs.length < mt) :
    addPair ⟨mt, pairMsgs qs⟩ p = ⟨mt, pairMsgs (qs ++ [p])⟩ := by
  have h1 : ConversationHistory.add_user_message ⟨mt, pairMsgs qs⟩ p.1
      = ⟨mt, pairMsgs qs ++ [⟨"user", p.1⟩]⟩ := by
    unfold ConversationHistory.add_user_message
    exact truncate_of_le _ (by simp; omega)
  unfold addPair
  rw [h1]
  unfold ConversationHistory.add_assistant_message
  rw [truncate_of_le _ (by simp; omega)]
  simp [pairMsgs_append]

/-- One complete turn on a history at capacity drops the oldest pair and
appends the new one. -/
theorem addPair_at_capacity (mt : Nat) (hmt : 1 ≤ mt) (q : String × String)
    (qs' : List (String × String)) (p : String × String) (hq : (q :: qs').length = mt) :
    addPair ⟨mt, pairMsgs (q :: qs')⟩ p = ⟨mt, pairMsgs (qs' ++ [p])⟩ := by
  have hq' : qs'.length + 1 = mt := by simpa using hq
  have h1 : ConversationHistory.add_user_message ⟨mt, pairMsgs (q :: qs')⟩ p.1
      = ⟨mt, (⟨"assistant", q.2⟩ : HistMsg) :: (pairMsgs qs' ++ [⟨"user", p.1⟩])⟩ := by
    unfold ConversationHistory.add_user_message
    rw [truncate_of_one_over _ (by simpa using hmt) (by simp; omega)]
    simp
  unfold addPair
  rw [h1]
  unfold ConversationHistory.add_assistant_message
  rw [truncate_of_one_over _ (by simpa using hmt) (by simp; omega)]
  simp [pairMsgs_append]

/-- Invariant of paired operation: the stored messages are exactly the most
recent `max_turns` pairs, flattened in order. -/
theorem runPairs_messages (mt : Nat) (hmt : 1 ≤ mt) (ps : List (String × String)) :
    runPairs mt ps = ⟨mt, pairMsgs (takeLast mt ps)⟩ := by
  induction ps using List.reverseRecOn with
  | nil => simp [runPairs, emptyHistory, takeLast, pairMsgs]
  | append_singleton ps p ih =>
    unfold runPairs at ih ⊢
    rw [List.foldl_append, ih, List.foldl_cons, List.foldl_nil]
    rcases Nat.lt_or_ge ps.length mt with hlt | hge
    · rw [addPair_below mt _ p (by rw [takeLast_length]; omega)]
      rw [takeLast_snoc_of_lt p hlt]
    · have hlen : (takeLast mt ps).length = mt := by rw [takeLast_length]; omega
      obtain ⟨q, qs', hcons⟩ : ∃ q qs', takeLast mt ps = q :: qs' := by
        cases hk : takeLast mt ps with
        | nil => rw [hk] at hlen; simp at hlen; omega
        | cons q qs' => exact ⟨q, qs', rfl⟩
      rw [hcons, addPair_at_capacity mt hmt q qs' p (by rw [← hcons, hlen])]
      rw [takeLast_snoc_of_ge p hmt hge, hcons]
      simp only [List.tail_cons]

/-- C1 (amended): under paired operation with capacity at least 1, the length
is always twice the turn count, and once more than `max_turns` pairs have been
added, `get_messages` returns exactly the most recent `max_turns` pairs in
their original order. -/
theorem C1_history_invariant (mt : Nat) (hmt : 1 ≤ mt) (ps : List (String × String)) :
    (runPairs mt ps).len = 2 * (runPairs mt ps).turn_count ∧
    (mt < ps.length →
      (runPairs mt ps).get_messages = pairMsgs (ps.drop (ps.length - mt))) := by
  rw [runPairs_messages mt hmt]
  constructor
  · simp only [ConversationHistory.len, ConversationHistory.turn_count, pairMsgs_length]
    omega
  · intro _
    simp [ConversationHistory.get_messages, takeLast]

/-- C1 witness: three pairs into a capacity-2 history keep only the last two
pairs, and the length equals twice the turn count. -/
theorem C1_history_invariant_witness :
    (runPairs 2 [("a", "b"), ("c", "d"), ("e", "f")]).len =
      2 * (runPairs 2 [("a", "b"), ("c", "d"), ("e", "f")]).turn_count ∧
    (runPairs 2 [("a", "b"), ("c", "d"), ("e", "f")]).get_messages =
      pairMsgs ([("a", "b"), ("c", "d"), ("e", "f")].drop 1) :=
  ⟨(C1_history_invariant 2 (by decide) _).1,
   (C1_history_invariant 2 (by decide) [("a", "b"), ("c", "d"), ("e", "f")]).2 (by decide)⟩

/-- C1 counterexample: after a single `add_user_message` on a fresh default
history the stored count is 1 while `2 * turn_count = 0`, so the claimed
equality does not hold after every call of every sequence. -/
theorem C1_counterexample :
    ¬ ((ConversationHistory.add_user_message (emptyHistory 20) "hi").len =
        2 * (ConversationHistory.add_user_message (emptyHistory 20) "hi").turn_count) := by
  decide

theorem read_alloc_old (heap : ListHeap) (v : List HistMsg) (a : Nat)
    (ha : a < heap.cells.length) : (heap.alloc v).1.read a = heap.read a := by
  unfold ListHeap.alloc ListHeap.read
  simp [List.getD_eq_getElem?_getD, List.getElem?_append_left ha]

theorem read_write_ne (heap : ListHeap) (a b : Nat) (v : List HistMsg) (h : b ≠ a) :
    (heap.write a v).read b = heap.read b := by
  unfold ListHeap.write ListHeap.read
  simp [List.getD_eq_getElem?_getD, List.getElem?_set_ne (Ne.symm h)]

/-- C10: `get_messages` returns a fresh copy.  Mutating the returned list
object in any way leaves the history's stored cell unchanged, and two
successive `get_messages` calls with no intervening add return objects with
equal contents (both equal to the stored history). -/
theorem C10_get_messages_fresh_copy (heap : ListHeap) (addr : Nat)
    (f : List HistMsg → List HistMsg) (ha : addr < heap.cells.length) :
    ((get_messagesHeap heap addr).1.write (get_messagesHeap heap addr).2
        (f ((get_messagesHeap heap addr).1.read (get_messagesHeap heap addr).2))).read addr
      = heap.read addr ∧
    (get_messagesHeap heap addr).2 ≠ addr ∧
    (get_messagesHeap heap addr).1.read (get_messagesHeap heap addr).2 = heap.read addr ∧
    (((get_messagesHeap heap addr).1.alloc
        ((get_messagesHeap heap addr).1.read addr)).1.read
          (get_messagesHeap heap addr).2
      = ((get_messagesHeap heap addr).1.alloc
        ((get_messagesHeap heap addr).1.read addr)).1.read
          ((get_messagesHeap heap addr).1.alloc
            ((get_messagesHeap heap addr).1.read addr)).2) := by
  have hfresh : (get_messagesHeap heap addr).2 = heap.cells.length := rfl
  have hne : (get_messagesHeap heap addr).2 ≠ addr := by omega
  have hread : (get_messagesHeap heap addr).1.read (get_messagesHeap heap addr).2
      = heap.read addr := by
    unfold get_messagesHeap ListHeap.alloc ListHeap.read
    simp [List.getD_eq_getElem?_getD]
  refine ⟨?_, hne, hread, ?_⟩
  · rw [read_write_ne _ _ _ _ (Ne.symm hne)]
    exact read_alloc_old heap _ addr ha
  · have hlen : (get_messagesHeap heap addr).1.cells.length = heap.cells.length + 1 := by
      unfold get_messagesHeap ListHeap.alloc
      simp
    rw [read_alloc_old _ _ _ (by omega)]
    rw [hread]
    have hold : (get_messagesHeap heap addr).1.read addr = heap.read addr :=
      read_alloc_old heap _ addr ha
    rw [hold]
    unfold ListHeap.alloc ListHeap.read
    simp [List.getD_eq_getElem?_getD]

/-- C10 witness: a concrete two-cell heap; mutating the copy returned by
`get_messages` (here: dropping its elements) leaves the stored history
untouched and a second call still returns the same contents. -/
theorem C10_get_messages_fresh_copy_witness :
    ((get_messagesHeap ⟨[[⟨"user", "q"⟩, ⟨"assistant", "a"⟩]]⟩ 0).1.write
        (get_messagesHeap ⟨[[⟨"user", "q"⟩, ⟨"assistant", "a"⟩]]⟩ 0).2
        ((get_messagesHeap ⟨[[⟨"user", "q"⟩, ⟨"assistant", "a"⟩]]⟩ 0).1.read
          (get_messagesHeap ⟨[[⟨"user", "q"⟩, ⟨"assistant", "a"⟩]]⟩ 0).2).tail).read 0
      = ListHeap.read ⟨[[⟨"user", "q"⟩, ⟨"assistant", "a"⟩]]⟩ 0 :=
  (C10_get_messages_fresh_copy ⟨[[⟨"user", "q"⟩, ⟨"assistant", "a"⟩]]⟩ 0
    List.tail (by decide)).1

/-- Behaviour of the structured-call loop under a scripted port: one
invocation per step for `k` steps, then a terminal reply. -/
theorem runFCAux_script (llm : Nat → ModelReply) (exec : String → String → String)
    (tc : Nat → ToolCall) (k : Nat) :
    ∀ (idx fuel : Nat) (msgs : List CtxMsg), k < fuel →
    (∀ i, i < k → (llm (idx + i)).tool_calls = [tc (idx + i)]) →
    (llm (idx + k)).tool_calls = [] →
    (runFCAux llm exec fuel idx msgs).answer = some ((llm (idx + k)).content.getD "") ∧
    (runFCAux llm exec fuel idx msgs).modelCalls = k + 1 ∧
    (runFCAux llm exec fuel idx msgs).toolExecs =
      (List.range k).map (fun i =>
        ((tc (idx + i)).name, exec (tc (idx + i)).name (tc (idx + i)).arguments)) := by
  induction k with
  | zero =>
    intro idx fuel msgs hf hs ht
    obtain ⟨f, rfl⟩ : ∃ f, fuel = f + 1 := ⟨fuel - 1, by omega⟩
    rw [show idx + 0 = idx from rfl] at ht
    simp only [runFCAux]
    rw [ht]
    simp
  | succ k ih =>
    intro idx fuel msgs hf hs ht
    obtain ⟨f, rfl⟩ : ∃ f, fuel = f + 1 := ⟨fuel - 1, by omega⟩
    have h0 : (llm idx).tool_calls = [tc idx] := by simpa using hs 0 (by omega)
    have hrec := fun msgs' => ih (idx + 1) f msgs' (by omega)
      (fun i hi => by
        have hh := hs (i + 1) (by omega)
        rwa [show idx + (i + 1) = idx + 1 + i by omega] at hh)
      (by rwa [show idx + 1 + k = idx + (k + 1) by omega])
    simp only [runFCAux, h0]
    simp only [List.isEmpty_cons, Bool.false_eq_true, if_false, List.map_cons, List.map_nil]
    refine ⟨?_, ?_, ?_⟩
    · rw [(hrec _).1]
      rw [show idx + 1 + k = idx + (k + 1) by omega]
    · rw [(hrec _).2.1]
    · rw [(hrec _).2.2]
      rw [List.range_succ_eq_map, List.map_cons, List.map_map]
      rw [show idx + 0 = idx from rfl]
      refine congrArg₂ _ rfl ?_
      apply List.map_congr_left
      intro a _
      simp only [Function.comp]
      rw [show idx + (a + 1) = idx + 1 + a by omega]

/-- C2: with a structured-call port that requests exactly one tool invocation
on each of `k < max_steps` consecutive steps and then replies without tool
invocations, the function-calling loop performs exactly `k + 1` model calls
and exactly `k` tool executions, in the order the model returned them, and
returns the terminal reply's text. -/
theorem C2_structured_loop_counts (llm : Nat → ModelReply) (exec : String → String → String)
    (tc : Nat → ToolCall) (maxSteps k : Nat) (hist : ConversationHistory) (query ans : String)
    (hk : k < maxSteps)
    (hscript : ∀ i, i < k → (llm i).tool_calls = [tc i])
    (hterm : (llm k).tool_calls = [])
    (hans : (llm k).content = some ans) :
    (runFunctionCalling llm exec maxSteps hist query).answer = ans ∧
    (runFunctionCalling llm exec maxSteps hist query).modelCalls = k + 1 ∧
    (runFunctionCalling llm exec maxSteps hist query).toolExecs =
      (List.range k).map (fun i => ((tc i).name, exec (tc i).name (tc i).arguments)) := by
  have h := runFCAux_script llm exec tc k 0 maxSteps
    (CtxMsg.system SYSTEM_PROMPT_FUNCTION_CALLING ::
      (hist.get_messages.map histToCtx ++ [CtxMsg.user query]))
    hk (fun i hi => by simpa using hscript i hi) (by simpa using hterm)
  simp only [Nat.zero_add] at h
  obtain ⟨ha, hm, hx⟩ := h
  rw [hans] at ha
  unfold runFunctionCalling
  simp only [ha, hm, hx, Option.getD_some]
  exact ⟨trivial, trivial, trivial⟩

/-- C2 witness: with the scripted port above and `k = 1 < 3`, the loop makes
2 model calls, executes 1 invocation and returns the terminal text. -/
theorem C2_structured_loop_counts_witness :
    (runFunctionCalling fcScriptLlm constExec 3 (emptyHistory 20) "q").answer = "final answer" ∧
    (runFunctionCalling fcScriptLlm constExec 3 (emptyHistory 20) "q").modelCalls = 1 + 1 ∧
    (runFunctionCalling fcScriptLlm constExec 3 (emptyHistory 20) "q").toolExecs =
      (List.range 1).map (fun i =>
        ((fcScriptCall i).name, constExec (fcScriptCall i).name (fcScriptCall i).arguments)) :=
  C2_structured_loop_counts fcScriptLlm constExec fcScriptCall 3 1 (emptyHistory 20) "q"
    "final answer" (by decide) (by decide) (by decide) (by decide)

/-- Exhaustion of the structured-call loop: if every reply within the fuel
requests at least one invocation, no terminal answer is produced. -/
theorem runFCAux_exhaust (llm : Nat → ModelReply) (exec : String → String → String) :
    ∀ (fuel idx : Nat) (msgs : List CtxMsg),
    (∀ i, i < fuel → (llm (idx + i)).tool_calls ≠ []) →
    (runFCAux llm exec fuel idx msgs).answer = none := by
  intro fuel
  induction fuel with
  | zero => intro idx msgs _; rfl
  | succ f ih =>
    intro idx msgs h
    have h0 : (llm idx).tool_calls ≠ [] := by simpa using h 0 (by omega)
    simp only [runFCAux]
    rw [if_neg (by simpa [List.isEmpty_iff] using h0)]
    exact ih (idx + 1) _ (fun i hi => by
      have hh := h (i + 1) (by omega)
      rwa [show idx + (i + 1) = idx + 1 + i by omega] at hh)

/-- Exhaustion of the free-text loop: if every reply within the fuel has no
`Final Answer:` match but has an `Action:` match, no terminal answer is
produced. -/
theorem runTPAux_exhaust (llm : Nat → String) (exec : String → String → String) :
    ∀ (fuel idx : Nat) (msgs : List CtxMsg),
    (∀ i, i < fuel → findFinalAnswer (llm (idx + i)) = none ∧
      findAction (llm (idx + i)) ≠ none) →
    (runTPAux llm exec fuel idx msgs).answer = none := by
  intro fuel
  induction fuel with
  | zero => intro idx msgs _; rfl
  | succ f ih =>
    intro idx msgs h
    obtain ⟨hfa, hac⟩ := h 0 (by omega)
    rw [show idx + 0 = idx from rfl] at hfa hac
    obtain ⟨a, ha⟩ : ∃ a, findAction (llm idx) = some a := by
      cases hc : findAction (llm idx) with
      | none => exact absurd hc hac
      | some a => exact ⟨a, rfl⟩
    simp only [runTPAux, hfa, ha]
    exact ih (idx + 1) _ (fun i hi => by
      have hh := h (i + 1) (by omega)
      rwa [show idx + (i + 1) = idx + 1 + i by omega] at hh)

/-- C7: in both protocols, when the step ceiling is exhausted without a
terminal reply, `run` returns the same fixed fallback message, records the
query and that fallback into the conversation history, and produces a value
(never an exception). -/
theorem C7_step_ceiling_fallback (llmF : Nat → ModelReply) (llmT : Nat → String)
    (execF execT : String → String → String) (maxSteps : Nat)
    (histF histT : ConversationHistory) (query : String)
    (hF : ∀ i, i < maxSteps → (llmF i).tool_calls ≠ [])
    (hT : ∀ i, i < maxSteps → findFinalAnswer (llmT i) = none ∧ findAction (llmT i) ≠ none) :
    (runFunctionCalling llmF execF maxSteps histF query).answer = FALLBACK_MESSAGE ∧
    (runTextParsing llmT execT maxSteps histT query).answer = FALLBACK_MESSAGE ∧
    (runFunctionCalling llmF execF maxSteps histF query).history =
      (histF.add_user_message query).add_assistant_message FALLBACK_MESSAGE ∧
    (runTextParsing llmT execT maxSteps histT query).history =
      (histT.add_user_message query).add_assistant_message FALLBACK_MESSAGE := by
  have hFe := runFCAux_exhaust llmF execF maxSteps 0
    (CtxMsg.system SYSTEM_PROMPT_FUNCTION_CALLING ::
      (histF.get_messages.map histToCtx ++ [CtxMsg.user query]))
    (fun i hi => by simpa using hF i hi)
  have hTe := runTPAux_exhaust llmT execT maxSteps 0
    (CtxMsg.system SYSTEM_PROMPT_TEXT_PARSING ::
      (histT.get_messages.map histToCtx ++ [CtxMsg.user ("Question: " ++ query ++ "\n")]))
    (fun i hi => by simpa using hT i hi)
  unfold runFunctionCalling runTextParsing
  simp only [hFe, hTe]
  exact ⟨trivial, trivial, trivial, trivial⟩

/-- C7 witness: with ports that never terminate and `max_steps = 2`, both
protocols return the fixed fallback and record the turn. -/
theorem C7_step_ceiling_fallback_witness :
    (runFunctionCalling fcLoopLlm constExec 2 (emptyHistory 20) "q").answer = FALLBACK_MESSAGE ∧
    (runTextParsing tpScriptLlm constExec 2 (emptyHistory 20) "q").answer = FALLBACK_MESSAGE ∧
    (runFunctionCalling fcLoopLlm constExec 2 (emptyHistory 20) "q").history =
      ((emptyHistory 20).add_user_message "q").add_assistant_message FALLBACK_MESSAGE ∧
    (runTextParsing tpScriptLlm constExec 2 (emptyHistory 20) "q").history =
      ((emptyHistory 20).add_user_message "q").add_assistant_message FALLBACK_MESSAGE :=
  C7_step_ceiling_fallback fcLoopLlm tpScriptLlm constExec constExec 2
    (emptyHistory 20) (emptyHistory 20) "q" (by decide) (by decide)

/-- C8 (amended): every operation that logs messages appends and leaves the
previously stored messages unchanged, and no field of a `Message` is ever
changed except by `_broadcast`, which overwrites exactly the receiver with
`"all"` (all other fields are preserved). -/
theorem C8_message_immutability_amended (st : SharedState) (m : Message) (n r : String) :
    (st.add_message m).messages = st.messages ++ [m] ∧
    (st.add_result n r).messages =
      st.messages ++ [⟨n, "system", r, MessageType.result, [], ""⟩] ∧
    (st.broadcast m).messages = st.messages ++ [{ m with receiver := "all" }] ∧
    ({ m with receiver := "all" } : Message).sender = m.sender ∧
    ({ m with receiver := "all" } : Message).content = m.content ∧
    ({ m with receiver := "all" } : Message).msg_type = m.msg_type ∧
    ({ m with receiver := "all" } : Message).metadata = m.metadata ∧
    ({ m with receiver := "all" } : Message).timestamp = m.timestamp :=
  ⟨rfl, rfl, rfl, rfl, rfl, rfl, rfl, rfl⟩

/-- C8 counterexample: `_broadcast` mutates the `receiver` field of an
existing message — a message constructed with receiver `"reviewer"` is stored
with receiver `"all"`, so the system does not leave every field of every
constructed `Message` unchanged. -/
theorem C8_counterexample :
    (initSharedState.broadcast
        ⟨"planner", "reviewer", "hello", MessageType.task, [], ""⟩).messages =
      [⟨"planner", "all", "hello", MessageType.task, [], ""⟩] ∧
    (⟨"planner", "all", "hello", MessageType.task, [], ""⟩ : Message) ≠
      ⟨"planner", "reviewer", "hello", MessageType.task, [], ""⟩ := by
  decide


/-- C3: dispatch never propagates an exception; an unregistered agent name
yields a string containing the name and the list of valid names; an exception
raised inside the agent's run is converted into a formatted error string. -/
theorem C3_dispatch_never_raises (agents : List (String × AgentModel))
    (st : SharedState) (agentName task : String) :
    (∃ out, dispatch agents st agentName task = Except.ok out) ∧
    (List.lookup agentName agents = none →
      dispatch agents st agentName task =
        Except.ok ("错误：Agent " ++ pyQuote ++ agentName ++ pyQuote ++ " 不存在。可用：" ++
          pyListRepr (agentNames agents), st)) ∧
    (∀ ag e, List.lookup agentName agents = some ag →
      ag.run (fullTaskOf ag.rolePrompt task) = Except.error e →
      ∃ st', dispatch agents st agentName task =
        Except.ok ("错误：Agent " ++ pyQuote ++ agentName ++ pyQuote ++ " 执行失败：" ++ e,
          st')) := by
  refine ⟨?_, ?_, ?_⟩
  · cases h : List.lookup agentName agents with
    | none => exact ⟨_, by unfold dispatch; rw [h]⟩
    | some ag => exact ⟨_, by unfold dispatch; rw [h]⟩
  · intro h
    unfold dispatch
    rw [h]
  · intro ag e hag herr
    exact ⟨(st.add_message ⟨"system", agentName, task, MessageType.task, [], ""⟩).add_result
        agentName ("错误：Agent " ++ pyQuote ++ agentName ++ pyQuote ++ " 执行失败：" ++ e),
      by unfold dispatch; rw [hag]; simp [herr]⟩

/-- C3 witness: dispatching to the unregistered name `"ghost"` returns the
formatted unknown-agent string, and dispatching to `"worker"` (whose run
raises `boom`) returns the formatted failure string — no exception escapes. -/
theorem C3_dispatch_never_raises_witness :
    dispatch wAgents initSharedState "ghost" "t" =
      Except.ok ("错误：Agent " ++ pyQuote ++ "ghost" ++ pyQuote ++ " 不存在。可用：" ++
        pyListRepr (agentNames wAgents), initSharedState) ∧
    ∃ st', dispatch wAgents initSharedState "worker" "t" =
      Except.ok ("错误：Agent " ++ pyQuote ++ "worker" ++ pyQuote ++ " 执行失败：" ++ "boom",
        st') :=
  ⟨(C3_dispatch_never_raises wAgents initSharedState "ghost" "t").2.1 rfl,
   (C3_dispatch_never_raises wAgents initSharedState "worker" "t").2.2
     ⟨"", fun _ => Except.error "boom"⟩ "boom" rfl rfl⟩

/-- C9: registering a tool whose name is already registered raises a
configuration error synchronously at the register call; registering two
differently-named tools succeeds and both appear in the schema export. -/
theorem C9_duplicate_registration (t1 t2 : Tool) :
    emptyRegistry.register t1 = Except.ok ⟨[(t1.name, t1)]⟩ ∧
    (t2.name = t1.name →
      ToolRegistry.register ⟨[(t1.name, t1)]⟩ t2 =
        Except.error ("工具 " ++ pyQuote ++ t2.name ++ pyQuote ++ " 已注册，请勿重复注册。")) ∧
    (t2.name ≠ t1.name →
      ToolRegistry.register ⟨[(t1.name, t1)]⟩ t2 =
        Except.ok ⟨[(t1.name, t1), (t2.name, t2)]⟩ ∧
      ToolRegistry.to_openai_tools ⟨[(t1.name, t1), (t2.name, t2)]⟩ =
        [t1.to_openai_tool, t2.to_openai_tool]) := by
  refine ⟨rfl, ?_, ?_⟩
  · intro h
    simp [ToolRegistry.register, h]
  · intro h
    exact ⟨by simp [ToolRegistry.register, h], rfl⟩

/-- C9 witness: re-registering the name `"calculator"` raises; registering
`"weather"` next to it succeeds and both schemas are exported. -/
theorem C9_duplicate_registration_witness :
    ToolRegistry.register ⟨[(calcTool.name, calcTool)]⟩ calcTool2 =
      Except.error ("工具 " ++ pyQuote ++ calcTool2.name ++ pyQuote ++ " 已注册，请勿重复注册。") ∧
    ToolRegistry.register ⟨[(calcTool.name, calcTool)]⟩ weatherTool =
      Except.ok ⟨[(calcTool.name, calcTool), (weatherTool.name, weatherTool)]⟩ ∧
    ToolRegistry.to_openai_tools ⟨[(calcTool.name, calcTool), (weatherTool.name, weatherTool)]⟩ =
      [calcTool.to_openai_tool, weatherTool.to_openai_tool] :=
  ⟨(C9_duplicate_registration calcTool calcTool2).2.1 rfl,
   ((C9_duplicate_registration calcTool weatherTool).2.2 (by decide)).1,
   ((C9_duplicate_registration calcTool weatherTool).2.2 (by decide)).2⟩

/-- C4: a single step with `retry = 3` whose dispatch always returns an
error string is attempted exactly 3 times, and the pipeline's final output
is the error string returned by the last (third) attempt. -/
theorem C4_pipeline_retry_exhausts (d : Nat → String → String → String)
    (a tmpl task : String)
    (hd : ∀ i t, pyStartsWith (d i a t) "错误：" = true) :
    runPipeline d [⟨a, tmpl, 3, none⟩] task =
      (d 2 a (renderTemplate tmpl task "" (formatAllResults [])), 3) := by
  unfold runPipeline
  rw [if_neg (by simp)]
  unfold runPipelineSteps
  simp only [executeWithRetry, hd, if_true, if_pos]
  rfl

/-- C4 witness: a dispatch oracle that always fails; the single retry-3 step
is attempted 3 times and the run returns the last error. -/
theorem C4_pipeline_retry_exhausts_witness :
    runPipeline (fun _ _ _ => "错误：fail") [⟨"writer", "{task}", 3, none⟩] "t" =
      ("错误：fail", 3) :=
  C4_pipeline_retry_exhausts (fun _ _ _ => "错误：fail") "writer" "{task}" "t"
    (fun _ _ => rfl)

/-- C5: a planner reply with no opening bracket (such as `"I cannot help."`)
yields a plan of length 0, and the run returns the fixed
cannot-generate-plan message with zero agent dispatches. -/
theorem C5_unparseable_plan (jsonLoads : String → Option JsonV) (plannerReply : String)
    (d : Nat → String → String → String) (summarize : String → String → String)
    (agents : List String) (task : String)
    (h : firstIdxOf lBrack plannerReply.data = none) :
    parsePlan jsonLoads plannerReply = [] ∧
    runOrchestrator jsonLoads plannerReply d summarize agents task =
      ("错误：无法生成执行计划。", 0) := by
  have hx : extractBracketed plannerReply = none := by
    unfold extractBracketed
    rw [h]
  have hp : parsePlan jsonLoads plannerReply = [] := by
    unfold parsePlan
    rw [hx]
  refine ⟨hp, ?_⟩
  unfold runOrchestrator
  simp only [hp, List.isEmpty_nil, if_true, if_pos]

/-- C5 witness: the reply `"I cannot help."` yields the empty plan and the
fixed error, with no dispatch. -/
theorem C5_unparseable_plan_witness :
    parsePlan (fun _ => none) "I cannot help." = [] ∧
    runOrchestrator (fun _ => none) "I cannot help." (fun _ _ _ => "r")
      (fun _ _ => "s") ["researcher"] "t" = ("错误：无法生成执行计划。", 0) :=
  C5_unparseable_plan (fun _ => none) "I cannot help." (fun _ _ _ => "r")
    (fun _ _ => "s") ["researcher"] "t" (by decide)

theorem formatOpinions_pair_left (A B x y : String) (h : A ≠ B) :
    formatOpinions [[(A, x), (B, y)]] A = "[第1轮 - " ++ B ++ "]:\n" ++ y ++ "\n" := by
  have h1 : (toString (1 : Nat) : String) = "1" := rfl
  unfold formatOpinions
  simp [List.enum, List.enumFrom, List.filter, h, Ne.symm h, String.intercalate,
    String.intercalate.go, h1]

theorem formatOpinions_pair_right (A B x y : String) (h : A ≠ B) :
    formatOpinions [[(A, x), (B, y)]] B = "[第1轮 - " ++ A ++ "]:\n" ++ x ++ "\n" := by
  have h1 : (toString (1 : Nat) : String) = "1" := rfl
  unfold formatOpinions
  simp [List.enum, List.enumFrom, List.filter, h, Ne.symm h, String.intercalate,
    String.intercalate.go, h1]

theorem debateRound_first (d0 : String → String → String) (task A B : String) :
    debateRound d0 task [A, B] [] 1 =
      ([(A, d0 A (debateRound1Task task)), (B, d0 B (debateRound1Task task))],
       [(1, A, debateRound1Task task), (1, B, debateRound1Task task)]) := by
  simp [debateRound]

theorem debateRound_second (d0 : String → String → String) (task A B opA opB : String)
    (h : A ≠ B) :
    debateRound d0 task [A, B] [[(A, opA), (B, opB)]] 2 =
      ([(A, d0 A (round2TaskFor task B opB)), (B, d0 B (round2TaskFor task A opA))],
       [(2, A, round2TaskFor task B opB), (2, B, round2TaskFor task A opA)]) := by
  simp [debateRound, round2TaskFor, formatOpinions_pair_left A B opA opB h,
    formatOpinions_pair_right A B opA opB h]

/-- C6: in a two-debater debate over `max_rounds = 2`, the round-2 sub-task
delivered to debater A is built from B's round-1 opinion (and symmetrically
for B): the full trace is as below, B's round-1 opinion occurs verbatim in
A's round-2 sub-task, and that sub-task is independent of A's own round-1
opinion — self-exclusion by exact name match. -/
theorem C6_debate_self_exclusion (d : String → String → String) (judgeD : String → String)
    (task A B : String) (hAB : A ≠ B) :
    (runDebate d judgeD task [A, B] 2).2 =
      [(1, A, debateRound1Task task), (1, B, debateRound1Task task),
       (2, A, round2TaskFor task B (d B (debateRound1Task task))),
       (2, B, round2TaskFor task A (d A (debateRound1Task task)))] ∧
    (∃ pre post, round2TaskFor task B (d B (debateRound1Task task)) =
      pre ++ d B (debateRound1Task task) ++ post) ∧
    (∃ pre post, round2TaskFor task A (d A (debateRound1Task task)) =
      pre ++ d A (debateRound1Task task) ++ post) ∧
    (∀ (d' : String → String → String) (judgeD' : String → String),
      d' B (debateRound1Task task) = d B (debateRound1Task task) →
      ((runDebate d' judgeD' task [A, B] 2).2.drop 2).head? =
        some (2, A, round2TaskFor task B (d B (debateRound1Task task)))) := by
  have key : ∀ (d0 : String → String → String) (judgeD0 : String → String),
      (runDebate d0 judgeD0 task [A, B] 2).2 =
        [(1, A, debateRound1Task task), (1, B, debateRound1Task task),
         (2, A, round2TaskFor task B (d0 B (debateRound1Task task))),
         (2, B, round2TaskFor task A (d0 A (debateRound1Task task)))] := by
    intro d0 judgeD0
    unfold runDebate
    simp only [debateRounds, List.nil_append]
    rw [debateRound_first d0 task A B]
    simp only [List.nil_append]
    rw [debateRound_second d0 task A B _ _ hAB]
    rfl
  refine ⟨key d judgeD, ?_, ?_, ?_⟩
  · exact ⟨"话题：" ++ task ++ "\n\n以下是其他参与者在之前轮次的观点：\n" ++
      "[第1轮 - " ++ B ++ "]:\n",
      "\n" ++ "\n\n请你针对其他人的观点进行回应，可以反驳、补充或修正自己的观点。给出你更新后的核心观点和论据。",
      by simp only [round2TaskFor, debateLaterTask, String.append_assoc]⟩
  · exact ⟨"话题：" ++ task ++ "\n\n以下是其他参与者在之前轮次的观点：\n" ++
      "[第1轮 - " ++ A ++ "]:\n",
      "\n" ++ "\n\n请你针对其他人的观点进行回应，可以反驳、补充或修正自己的观点。给出你更新后的核心观点和论据。",
      by simp only [round2TaskFor, debateLaterTask, String.append_assoc]⟩
  · intro d' judgeD' hB
    rw [key d' judgeD', hB]
    rfl

/-- C6 witness: a concrete two-debater debate; the trace, the containment of
the opponent's round-1 opinion, and the independence from the debater's own
round-1 opinion, at concrete inputs. -/
theorem C6_debate_self_exclusion_witness :
    ((runDebate (fun n _ => "op-" ++ n) (fun _ => "verdict") "topic" ["alice", "bob"] 2).2 =
      [(1, "alice", debateRound1Task "topic"), (1, "bob", debateRound1Task "topic"),
       (2, "alice", round2TaskFor "topic" "bob" "op-bob"),
       (2, "bob", round2TaskFor "topic" "alice" "op-alice")]) ∧
    ((runDebate (fun n t => if n = "alice" then "different-" ++ t else "op-" ++ n)
        (fun _ => "verdict") "topic" ["alice", "bob"] 2).2.drop 2).head? =
      some (2, "alice", round2TaskFor "topic" "bob" "op-bob") :=
  ⟨(C6_debate_self_exclusion (fun n _ => "op-" ++ n) (fun _ => "verdict") "topic"
      "alice" "bob" (by decide)).1,
   (C6_debate_self_exclusion (fun n _ => "op-" ++ n) (fun _ => "verdict") "topic"
      "alice" "bob" (by decide)).2.2.2
      (fun n t => if n = "alice" then "different-" ++ t else "op-" ++ n)
      (fun _ => "verdict") (by decide)⟩

end LearningAgent
